import Mathlib

/-!
AI-Assisted Document Authoring Platform: verification of the spec claims.

A shallow embedding of the refinement/revision subsystem and of the React
frontend handlers of the repository.  The frontend handlers
(`RefinementEditor`, `WordBuilder`, `PPTBuilder`, the axios response
interceptor, the auth store, `PrivateRoute`) are translated directly from the
JavaScript source.  The backend operations (`set_content`, `refine`,
`create_revision`) are not part of the provided sources (only their HTTP
callers are), so they are modelled from the spec, as marked in their doc
comments.
-/

/-- Modelled from the spec: the error taxonomy of §7 (the backend service
code that raises these is missing from the sources; only the spec describes
it). -/
inductive ApiError where
  | NotFound
  | Forbidden
  | ValidationError
  | GenerationFailed
  | ConflictError
deriving Repr, DecidableEq

/-- Modelled from the spec: a Content Item (§3) — section or slide — of a
single project: id, title, content (nullable until generated), is_generated.
The owning project id and ordinal are implicit: the whole model is the state
of one project, with items kept in ordinal order. -/
structure ContentItem where
  id : Nat
  title : String
  content : Option String
  is_generated : Bool
deriving Repr, DecidableEq

/-- Modelled from the spec: a Refinement Record (§3): prompt (null on the
manual-edit path), feedback, comments.  Timestamps are not modelled; the log
list order is creation order (append-only), which is what `created_at`
ordering exposes. -/
structure RefinementRecord where
  prompt : Option String
  feedback : Option String
  comments : Option String
deriving Repr, DecidableEq

/-- Modelled from the spec: a Revision (§3): per-project revision number,
creator, and an immutable snapshot of all (title, content) pairs at capture
time.  Timestamps are not modelled. -/
structure Revision where
  revision_number : Nat
  created_by : String
  snapshot : List (String × Option String)
deriving Repr, DecidableEq

/-- Modelled from the spec: the persistent state of one project: its Content
Items (ordinal order), its Revisions (creation order) and its append-only
refinement log. -/
structure ProjectState where
  items : List ContentItem
  revisions : List Revision
  log : List RefinementRecord
deriving Repr, DecidableEq

/-- The (title, content) pairs captured by a revision snapshot (§4.4). -/
def snapshotOf (items : List ContentItem) : List (String × Option String) :=
  items.map (fun it => (it.title, it.content))

/-- Modelled from the spec: `set_content` of the Content Store (§4.1): update
the item's content; side effect: `is_generated` becomes true iff the written
text is non-empty (§4.1 together with the testable property of §8).  Fails
with `NotFound` when no item has the given id.  Ownership (`Forbidden`) is
not modelled: the model is single-owner. -/
def set_content (s : ProjectState) (item_id : Nat) (text : String) :
    Except ApiError ProjectState :=
  if s.items.any (fun it => it.id == item_id) then
    .ok { s with
          items := s.items.map (fun it =>
            if it.id == item_id then
              { it with content := some text, is_generated := text != "" }
            else it) }
  else .error .NotFound

/-- Modelled from the spec: `refine` of the Refinement Log (§4.3), acting on
one Content Item.  If a prompt is present, the external text-generation
capability `gen` is called with the current content and the prompt and the
result becomes the new content; if absent, the supplied content is written
directly (no external call); if neither is supplied on an empty-content item,
`ValidationError`.  The content update follows `set_content`'s rule for
`is_generated`.  Returns the updated item and the appended record. -/
def refine (gen : String → String → String) (it : ContentItem)
    (prompt content feedback comments : Option String) :
    Except ApiError (ContentItem × RefinementRecord) :=
  match prompt with
  | some p =>
      let newText := gen (it.content.getD "") p
      .ok ({ it with content := some newText, is_generated := newText != "" },
           { prompt := some p, feedback := feedback, comments := comments })
  | none =>
      match content with
      | some c =>
          .ok ({ it with content := some c, is_generated := c != "" },
               { prompt := none, feedback := feedback, comments := comments })
      | none =>
          if it.content.getD "" = "" then .error .ValidationError
          else .ok (it, { prompt := none, feedback := feedback,
                          comments := comments })

/-- Modelled from the spec: the next revision number (§4.4):
`max (existing revision_numbers) + 1`, i.e. 1 when none exist. -/
def next_revision_number (revs : List Revision) : Nat :=
  (revs.map (fun r => r.revision_number)).foldr Nat.max 0 + 1

/-- Modelled from the spec: `create_revision` (§4.4): snapshot all (title,
content) pairs, assign the next revision number, persist the new revision,
return it.  The spec requires the assignment and insert to be atomic per
project; the model is that serialized semantics. -/
def create_revision (s : ProjectState) (actor : String) :
    ProjectState × Revision :=
  let rev : Revision :=
    { revision_number := next_revision_number s.revisions,
      created_by := actor,
      snapshot := snapshotOf s.items }
  ({ s with revisions := s.revisions ++ [rev] }, rev)

/-- Fetch a stored revision by its revision number. -/
def get_revision (s : ProjectState) (n : Nat) : Option Revision :=
  s.revisions.find? (fun r => r.revision_number == n)

/-- The revision numbers of a revision list, in storage (creation) order. -/
def revisionNumbers (revs : List Revision) : List Nat :=
  revs.map (fun r => r.revision_number)

/-- The operations that mutate a project's state after creation: a direct
content write, a refinement, or a revision snapshot. -/
inductive Op where
  | setContent (item_id : Nat) (text : String)
  | refineItem (item_id : Nat)
      (prompt content feedback comments : Option String)
  | createRev (actor : String)
deriving Repr, DecidableEq

/-- Modelled from the spec: `refine` lifted to the project state: find the
item, refine it, replace it and append the new record; a failing refine (or a
missing item, `NotFound`) leaves the state unchanged. -/
def applyRefine (gen : String → String → String) (s : ProjectState)
    (item_id : Nat) (prompt content feedback comments : Option String) :
    ProjectState :=
  match s.items.find? (fun it => it.id == item_id) with
  | none => s
  | some it =>
      match refine gen it prompt content feedback comments with
      | .error _ => s
      | .ok (it', r) =>
          { s with
            items := s.items.map (fun j => if j.id == item_id then it' else j),
            log := s.log ++ [r] }

/-- One step of the project-state transition system; failing operations leave
the state unchanged. -/
def runOp (gen : String → String → String) (s : ProjectState) : Op →
    ProjectState
  | .setContent item_id text =>
      match set_content s item_id text with
      | .ok s' => s'
      | .error _ => s
  | .refineItem item_id p c f cm => applyRefine gen s item_id p c f cm
  | .createRev actor => (create_revision s actor).1

/-- Run a sequence of operations against a project state. -/
def run (gen : String → String → String) (s : ProjectState)
    (ops : List Op) : ProjectState :=
  ops.foldl (runOp gen) s

/-- JavaScript's `String.prototype.trim()`: strip whitespace from both ends.
Written with structural recursion over the character list so that concrete
instances evaluate inside proofs. -/
def jsTrim (s : String) : String :=
  ⟨((s.data.dropWhile Char.isWhitespace).reverse.dropWhile
      Char.isWhitespace).reverse⟩

/-- The JSON body of a POST to the refine endpoint, as built by the frontend.
`prompt = none` models the key being absent from the JSON object
(`handleSave` builds the body without a prompt key). -/
structure RefineBody where
  prompt : Option String
  content : String
  feedback : Option String
  comments : Option String
deriving Repr, DecidableEq

/-- What a frontend handler does: surface an error message without issuing a
request, or send a request with the given body. -/
inductive RefineAction where
  | showError (msg : String)
  | sendRequest (body : RefineBody)
deriving Repr, DecidableEq

namespace RefinementEditor

/-- From `RefinementEditor.handleRefine` (frontend source): when the prompt is
blank after trimming, set the error message and return without a request;
otherwise POST `{prompt, content, feedback: feedback || null, comments:
comments || null}` to the refine endpoint. -/
def handleRefine (prompt content feedback comments : String) :
    RefineAction :=
  if jsTrim prompt = "" then .showError "Please enter a refinement prompt"
  else .sendRequest
    { prompt := some prompt,
      content := content,
      feedback := if feedback = "" then none else some feedback,
      comments := if comments = "" then none else some comments }

/-- From `RefinementEditor.handleSave` (frontend source): POST `{content,
feedback: feedback || null, comments: comments || null}` — no prompt key — to
the refine endpoint. -/
def handleSave (content feedback comments : String) : RefineBody :=
  { prompt := none,
    content := content,
    feedback := if feedback = "" then none else some feedback,
    comments := if comments = "" then none else some comments }

/-- From `RefinementEditor.fetchRefinements` (frontend source): on a
successful response the refinement list becomes the response data; on any
error the catch block does nothing, leaving the list as it was. -/
def fetchRefinements (current : List RefinementRecord)
    (resp : Except ApiError (List RefinementRecord)) :
    List RefinementRecord :=
  match resp with
  | .ok data => data
  | .error _ => current

end RefinementEditor

/-- What a builder's save handler does: surface an error message without
issuing a request, or POST the titles and context. -/
inductive BuilderAction where
  | showError (msg : String)
  | post (titles : List String) (context : String)
deriving Repr, DecidableEq

namespace WordBuilder

/-- From `WordBuilder.handleAddSection` (frontend source): append an empty
entry. -/
def handleAddSection (outline : List String) : List String :=
  outline ++ [""]

/-- From `WordBuilder.handleRemoveSection` (frontend source): when more than
one entry exists, keep the entries whose index differs from the removed one;
otherwise leave the outline unchanged. -/
def handleRemoveSection (outline : List String) (index : Nat) :
    List String :=
  if outline.length > 1 then
    ((outline.enum.filter (fun p => p.1 != index)).map (fun p => p.2))
  else outline

/-- From `WordBuilder.handleSectionChange` (frontend source): overwrite the
entry at the index. -/
def handleSectionChange (outline : List String) (index : Nat) (value : String) :
    List String :=
  outline.set index value

/-- From `WordBuilder.handleSave` (frontend source): drop the titles that are
blank after trimming; when nothing remains, show "Please add at least one
section" and issue no request; otherwise POST the filtered outline with the
context. -/
def handleSave (outline : List String) (context : String) : BuilderAction :=
  let filteredOutline := outline.filter (fun s => jsTrim s != "")
  if filteredOutline.length = 0 then
    .showError "Please add at least one section"
  else .post filteredOutline context

end WordBuilder

namespace PPTBuilder

/-- From `PPTBuilder.handleAddSlide` (frontend source): append an empty
entry. -/
def handleAddSlide (slideTitles : List String) : List String :=
  slideTitles ++ [""]

/-- From `PPTBuilder.handleRemoveSlide` (frontend source): when more than one
entry exists, keep the entries whose index differs from the removed one;
otherwise leave the titles unchanged. -/
def handleRemoveSlide (slideTitles : List String) (index : Nat) :
    List String :=
  if slideTitles.length > 1 then
    ((slideTitles.enum.filter (fun p => p.1 != index)).map (fun p => p.2))
  else slideTitles

/-- From `PPTBuilder.handleSlideChange` (frontend source): overwrite the entry
at the index. -/
def handleSlideChange (slideTitles : List String) (index : Nat)
    (value : String) : List String :=
  slideTitles.set index value

/-- From `PPTBuilder.handleSave` (frontend source): drop the titles that are
blank after trimming; when nothing remains, show "Please add at least one
slide" and issue no request; otherwise POST the filtered titles with the
context. -/
def handleSave (slideTitles : List String) (context : String) :
    BuilderAction :=
  let filteredTitles := slideTitles.filter (fun s => jsTrim s != "")
  if filteredTitles.length = 0 then
    .showError "Please add at least one slide"
  else .post filteredTitles context

end PPTBuilder

/-- An editing operation on a builder's title list (add, remove at an index,
change at an index), as dispatched by the builder components. -/
inductive TitleOp where
  | add
  | remove (index : Nat)
  | change (index : Nat) (value : String)
deriving Repr, DecidableEq

/-- Apply one Word-builder outline operation. -/
def applyWordOp (outline : List String) : TitleOp → List String
  | .add => WordBuilder.handleAddSection outline
  | .remove i => WordBuilder.handleRemoveSection outline i
  | .change i v => WordBuilder.handleSectionChange outline i v

/-- Apply one PowerPoint-builder slide-title operation. -/
def applyPptOp (slideTitles : List String) : TitleOp → List String
  | .add => PPTBuilder.handleAddSlide slideTitles
  | .remove i => PPTBuilder.handleRemoveSlide slideTitles i
  | .change i v => PPTBuilder.handleSlideChange slideTitles i v

/-- The browser-visible state the api interceptor and the auth store touch:
the keys present in localStorage and the current location. -/
structure BrowserState where
  localStorageKeys : List String
  href : String
deriving Repr, DecidableEq

/-- How the response interceptor disposes of an error: the promise is
rejected with the original error, or (hypothetically) resolved with an empty
result in place of the error.  The source only ever rejects. -/
inductive ErrOutcome where
  | rejected
  | resolvedEmpty
deriving Repr, DecidableEq

/-- From the response interceptor of `services/api.js`: on status 401, remove
`auth-storage` from localStorage, set the location to `/login` and reject; on
a silent 404/400, reject (the branch only skips console logging); otherwise
reject.  `status = none` models an error without a response. -/
def respondError (b : BrowserState) (isSilent : Bool)
    (status : Option Nat) : BrowserState × ErrOutcome :=
  if status = some 401 then
    ({ localStorageKeys := b.localStorageKeys.filter
         (fun k => k != "auth-storage"),
       href := "/login" }, .rejected)
  else if isSilent ∧ (status = some 404 ∨ status = some 400) then
    (b, .rejected)
  else
    (b, .rejected)

/-- The auth store's own state (`useAuthStore`): user, token,
isAuthenticated. -/
structure AuthState where
  user : Option String
  token : Option String
  isAuthenticated : Bool
deriving Repr, DecidableEq

/-- Everything `logout` touches: the store state, the axios default
Authorization header, and the localStorage keys. -/
structure ClientState where
  auth : AuthState
  authHeader : Option String
  localStorageKeys : List String
deriving Repr, DecidableEq

/-- From `useAuthStore.logout` (frontend source): delete the default
Authorization header, set `{user: null, token: null, isAuthenticated:
false}`, and remove `auth-storage` from localStorage. -/
def logout (s : ClientState) : ClientState :=
  { auth := { user := none, token := none, isAuthenticated := false },
    authHeader := none,
    localStorageKeys := s.localStorageKeys.filter
      (fun k => k != "auth-storage") }

/-- What a `PrivateRoute` renders: its child, or a `Navigate` to a path. -/
inductive RouteRender where
  | child
  | navigateTo (path : String)
deriving Repr, DecidableEq

/-- From `PrivateRoute` (frontend source): render the child when
authenticated, a `Navigate to="/login"` otherwise. -/
def PrivateRoute (isAuthenticated : Bool) : RouteRender :=
  if isAuthenticated then .child else .navigateTo "/login"

/-- Run a sequence of outline edits in the Word builder, starting from a
given outline. -/
def runTitleOpsWord (outline : List String) (ops : List TitleOp) :
    List String :=
  ops.foldl applyWordOp outline

/-- Run a sequence of slide-title edits in the PowerPoint builder, starting
from a given title list. -/
def runTitleOpsPpt (slideTitles : List String) (ops : List TitleOp) :
    List String :=
  ops.foldl applyPptOp slideTitles

/-- A deterministic stand-in for the external text-generation capability,
used to evaluate theorems on concrete inputs. -/
def gen0 : String → String → String := fun current _ => current ++ "!"

/-- A concrete generated Content Item. -/
def itemA : ContentItem :=
  { id := 1, title := "Intro", content := some "orig", is_generated := true }

/-- A concrete never-generated Content Item with empty content. -/
def itemEmpty : ContentItem :=
  { id := 2, title := "Body", content := none, is_generated := false }

/-- A concrete project state holding one generated item and no revisions. -/
def projA : ProjectState := { items := [itemA], revisions := [], log := [] }

/-- A concrete operation sequence that overwrites `itemA`'s content. -/
def opsA : List Op := [Op.setContent 1 "changed"]

/-- A concrete browser state before an error response arrives. -/
def bState0 : BrowserState :=
  { localStorageKeys := ["auth-storage", "theme"], href := "/dashboard" }

/-- A concrete logged-in client state. -/
def client0 : ClientState :=
  { auth := { user := some "u", token := some "t", isAuthenticated := true },
    authHeader := some "Bearer t",
    localStorageKeys := ["auth-storage"] }

/-- A concrete sequence of builder edits. -/
def titleOps0 : List TitleOp :=
  [TitleOp.add, TitleOp.remove 0, TitleOp.remove 0, TitleOp.change 0 "Intro"]

/-- Folding `max` over `range' a k` yields the last element (0 when empty). -/
theorem foldr_max_range' (k : Nat) : ∀ a : Nat,
    (List.range' a k).foldr Nat.max 0 = if k = 0 then 0 else a + k - 1 := by
  induction k with
  | zero => intro a; rfl
  | succ n ih =>
      intro a
      rw [List.range'_succ]
      simp only [List.foldr_cons, ih]
      cases n with
      | zero => simp
      | succ m =>
          rw [if_neg (by omega), if_neg (by omega)]
          show max a (a + 1 + (m + 1) - 1) = a + (m + 1 + 1) - 1
          rw [Nat.max_eq_right (by omega)]
          omega

/-- When the stored revision numbers are exactly `1..k`, the next assigned
number is `k + 1`. -/
theorem next_revision_number_eq (revs : List Revision)
    (h : revisionNumbers revs = List.range' 1 revs.length) :
    next_revision_number revs = revs.length + 1 := by
  unfold next_revision_number
  have h' : revs.map (fun r => r.revision_number)
      = List.range' 1 revs.length := h
  rw [h', foldr_max_range']
  split <;> omega

/-- Inversion for a successful `set_content`: the items are rewritten
pointwise and the revisions and log are untouched. -/
theorem set_content_ok (s : ProjectState) (item_id : Nat) (text : String)
    (s' : ProjectState) (h : set_content s item_id text = .ok s') :
    s'.items = s.items.map (fun it =>
        if it.id == item_id then
          { it with content := some text, is_generated := text != "" }
        else it)
    ∧ s'.revisions = s.revisions ∧ s'.log = s.log := by
  unfold set_content at h
  split at h
  · injection h with h'
    subst h'
    exact ⟨rfl, rfl, rfl⟩
  · cases h

/-- A content write never touches the revision list. -/
theorem revisions_runOp_setContent (gen : String → String → String)
    (s : ProjectState) (item_id : Nat) (text : String) :
    (runOp gen s (Op.setContent item_id text)).revisions = s.revisions := by
  simp only [runOp]
  split
  · rename_i s' heq
    exact (set_content_ok s item_id text s' heq).2.1
  · rfl

/-- A refinement never touches the revision list. -/
theorem revisions_runOp_refineItem (gen : String → String → String)
    (s : ProjectState) (item_id : Nat)
    (p c f cm : Option String) :
    (runOp gen s (Op.refineItem item_id p c f cm)).revisions
      = s.revisions := by
  simp only [runOp, applyRefine]
  split
  · rfl
  · split
    · rfl
    · rfl

/-- Every operation leaves the existing revision list as a prefix: revisions
are append-only. -/
theorem revisions_runOp_extend (gen : String → String → String)
    (s : ProjectState) (op : Op) :
    ∃ e, (runOp gen s op).revisions = s.revisions ++ e := by
  cases op with
  | setContent item_id text =>
      exact ⟨[], by rw [revisions_runOp_setContent]; simp⟩
  | refineItem item_id p c f cm =>
      exact ⟨[], by rw [revisions_runOp_refineItem]; simp⟩
  | createRev actor =>
      exact ⟨[(create_revision s actor).2], rfl⟩

/-- Running any operation sequence only ever appends to the revision list. -/
theorem revisions_run_extend (gen : String → String → String)
    (ops : List Op) : ∀ s : ProjectState,
    ∃ e, (run gen s ops).revisions = s.revisions ++ e := by
  induction ops with
  | nil => exact fun s => ⟨[], by simp [run]⟩
  | cons op ops ih =>
      intro s
      obtain ⟨e1, he1⟩ := revisions_runOp_extend gen s op
      obtain ⟨e2, he2⟩ := ih (runOp gen s op)
      exact ⟨e1 ++ e2, by
        show (run gen (runOp gen s op) ops).revisions = _
        rw [he2, he1, List.append_assoc]⟩

/-- One step preserves the invariant that the revision numbers, in storage
order, are exactly `1..k`. -/
theorem goodRevs_runOp (gen : String → String → String) (s : ProjectState)
    (op : Op)
    (h : revisionNumbers s.revisions = List.range' 1 s.revisions.length) :
    revisionNumbers (runOp gen s op).revisions
      = List.range' 1 (runOp gen s op).revisions.length := by
  cases op with
  | setContent item_id text =>
      rw [revisions_runOp_setContent]; exact h
  | refineItem item_id p c f cm =>
      rw [revisions_runOp_refineItem]; exact h
  | createRev actor =>
      have hrevs : (runOp gen s (Op.createRev actor)).revisions
          = s.revisions
            ++ [{ revision_number := next_revision_number s.revisions,
                  created_by := actor,
                  snapshot := snapshotOf s.items }] := rfl
      rw [hrevs]
      simp only [revisionNumbers, List.map_append, List.length_append,
        List.map_cons, List.map_nil, List.length_cons, List.length_nil]
      simp only [revisionNumbers] at h
      rw [h, next_revision_number_eq s.revisions h, List.range'_concat]
      simp [Nat.add_comm]

/-- Running any operation sequence preserves the `1..k` revision-number
invariant. -/
theorem goodRevs_run (gen : String → String → String) (ops : List Op) :
    ∀ s : ProjectState,
    revisionNumbers s.revisions = List.range' 1 s.revisions.length →
    revisionNumbers (run gen s ops).revisions
      = List.range' 1 (run gen s ops).revisions.length := by
  induction ops with
  | nil => intro s h; simpa [run] using h
  | cons op ops ih =>
      intro s h
      show revisionNumbers (run gen (runOp gen s op) ops).revisions = _
      exact ih _ (goodRevs_runOp gen s op h)

/-- C1: in every state reachable from a fresh project (no revisions) by any
sequence of writes, refinements and `create_revision` calls, the stored
revision numbers are exactly `1, 2, ..., k` in creation order — strictly
increasing, gapless, starting at 1, with no two revisions sharing a number —
and the next `create_revision` call assigns `max + 1`, i.e. `k + 1` (1 when
none exist). -/
theorem revision_numbers_gapless (gen : String → String → String)
    (items : List ContentItem) (log : List RefinementRecord)
    (ops : List Op) (actor : String) :
    revisionNumbers (run gen ⟨items, [], log⟩ ops).revisions
      = List.range' 1 (run gen ⟨items, [], log⟩ ops).revisions.length
    ∧ (revisionNumbers (run gen ⟨items, [], log⟩ ops).revisions).Chain'
        (fun a b => a < b)
    ∧ (revisionNumbers (run gen ⟨items, [], log⟩ ops).revisions).Nodup
    ∧ (create_revision (run gen ⟨items, [], log⟩ ops) actor).2.revision_number
        = (run gen ⟨items, [], log⟩ ops).revisions.length + 1 := by
  have h0 : revisionNumbers (ProjectState.mk items [] log).revisions
      = List.range' 1 (ProjectState.mk items [] log).revisions.length := rfl
  have hg := goodRevs_run gen ops ⟨items, [], log⟩ h0
  refine ⟨hg, ?_, ?_, ?_⟩
  · rw [hg]
    exact List.chain'_iff_pairwise.mpr (List.pairwise_lt_range' 1 _)
  · rw [hg]
    exact List.nodup_range' 1 _
  · exact next_revision_number_eq _ hg

/-- C1, evaluated: after three snapshots interleaved with writes, the
revision numbers are `[1, 2, 3]` and a fourth call would assign 4. -/
theorem revision_numbers_gapless_witness :
    revisionNumbers (run gen0 ⟨[itemA], [], []⟩
        [Op.createRev "u", Op.setContent 1 "x", Op.createRev "u",
         Op.createRev "v"]).revisions
      = List.range' 1 (run gen0 ⟨[itemA], [], []⟩
        [Op.createRev "u", Op.setContent 1 "x", Op.createRev "u",
         Op.createRev "v"]).revisions.length
    ∧ (revisionNumbers (run gen0 ⟨[itemA], [], []⟩
        [Op.createRev "u", Op.setContent 1 "x", Op.createRev "u",
         Op.createRev "v"]).revisions).Chain' (fun a b => a < b)
    ∧ (revisionNumbers (run gen0 ⟨[itemA], [], []⟩
        [Op.createRev "u", Op.setContent 1 "x", Op.createRev "u",
         Op.createRev "v"]).revisions).Nodup
    ∧ (create_revision (run gen0 ⟨[itemA], [], []⟩
        [Op.createRev "u", Op.setContent 1 "x", Op.createRev "u",
         Op.createRev "v"]) "w").2.revision_number
        = (run gen0 ⟨[itemA], [], []⟩
        [Op.createRev "u", Op.setContent 1 "x", Op.createRev "u",
         Op.createRev "v"]).revisions.length + 1 :=
  revision_numbers_gapless gen0 [itemA] []
    [Op.createRev "u", Op.setContent 1 "x", Op.createRev "u",
     Op.createRev "v"] "w"

/-- When the stored numbers are exactly `1..k`, no stored revision carries
the number `k + 1`. -/
theorem find?_next_number_none (revs : List Revision)
    (h : revisionNumbers revs = List.range' 1 revs.length) :
    revs.find? (fun r => r.revision_number == revs.length + 1) = none := by
  apply List.find?_eq_none.mpr
  intro r hr
  simp only [beq_iff_eq]
  have hm : r.revision_number ∈ revisionNumbers revs :=
    List.mem_map_of_mem _ hr
  rw [h] at hm
  have := List.mem_range'_1.mp hm
  omega

/-- C2: a revision's snapshot never changes after creation.  Starting from
any state whose revision numbers satisfy the reachable-state invariant,
create a revision, then run any sequence of content writes, refinements and
further snapshots: fetching the revision by its number still returns the
original revision record, whose snapshot is the (title, content) pairs at
capture time. -/
theorem revision_snapshot_immutable (gen : String → String → String)
    (s : ProjectState) (actor : String) (ops : List Op)
    (hinv : revisionNumbers s.revisions
      = List.range' 1 s.revisions.length) :
    get_revision (run gen (create_revision s actor).1 ops)
        (create_revision s actor).2.revision_number
      = some (create_revision s actor).2
    ∧ (create_revision s actor).2.snapshot = snapshotOf s.items := by
  constructor
  · obtain ⟨extra, hex⟩ :=
      revisions_run_extend gen ops (create_revision s actor).1
    unfold get_revision
    rw [hex]
    have h1 : (create_revision s actor).1.revisions
        = s.revisions ++ [(create_revision s actor).2] := rfl
    have hnum : (create_revision s actor).2.revision_number
        = s.revisions.length + 1 :=
      next_revision_number_eq s.revisions hinv
    rw [h1, List.append_assoc, List.find?_append, hnum,
      find?_next_number_none s.revisions hinv, List.singleton_append,
      List.find?_cons_of_pos _ (by simp [hnum])]
    simp
  · rfl

/-- C2, evaluated: snapshot "orig", overwrite the live item with "changed",
re-fetch revision 1: the snapshot still reads "orig". -/
theorem revision_snapshot_immutable_witness :
    revisionNumbers projA.revisions = List.range' 1 projA.revisions.length
    ∧ (get_revision (run gen0 (create_revision projA "u").1 opsA)
          (create_revision projA "u").2.revision_number
        = some (create_revision projA "u").2
      ∧ (create_revision projA "u").2.snapshot = snapshotOf projA.items) :=
  ⟨rfl, revision_snapshot_immutable gen0 projA "u" opsA rfl⟩

/-- C3: after the most recent successful write of an item's content,
`is_generated` holds iff the content is non-empty: `set_content` leaves every
item carrying the written id with the written text and with `is_generated`
true exactly when that text is non-empty, and a `refine` that performs a
write (a prompt or replacement content was supplied) leaves the updated item
with `is_generated` true exactly when its new content is non-empty. -/
theorem content_write_sets_is_generated :
    (∀ (s s' : ProjectState) (item_id : Nat) (text : String),
        set_content s item_id text = .ok s' →
        ∀ it ∈ s'.items, it.id = item_id →
          it.content = some text ∧ (it.is_generated = true ↔ text ≠ ""))
    ∧ (∀ (gen : String → String → String) (it : ContentItem)
        (p c f cm : Option String) (it' : ContentItem)
        (r : RefinementRecord),
        refine gen it p c f cm = .ok (it', r) →
        (p.isSome ∨ c.isSome) →
        (it'.is_generated = true ↔ it'.content.getD "" ≠ "")) := by
  constructor
  · intro s s' item_id text h it hmem hid
    rw [(set_content_ok s item_id text s' h).1] at hmem
    obtain ⟨j, hj, rfl⟩ := List.mem_map.mp hmem
    by_cases hjid : j.id == item_id
    · rw [if_pos hjid]
      refine ⟨rfl, ?_⟩
      simp [bne_iff_ne]
    · rw [if_neg hjid] at hid ⊢
      exact absurd (by simp [hid]) hjid
  · intro gen it p c f cm it' r h hw
    cases p with
    | some pv =>
        simp only [refine, Except.ok.injEq, Prod.mk.injEq] at h
        obtain ⟨h1, _⟩ := h
        subst h1
        simp [bne_iff_ne]
    | none =>
        cases c with
        | some cv =>
            simp only [refine, Except.ok.injEq, Prod.mk.injEq] at h
            obtain ⟨h1, _⟩ := h
            subst h1
            simp [bne_iff_ne]
        | none => simp at hw

/-- C3, evaluated: writing "hello" makes the item generated, with the iff
holding at that item. -/
theorem content_write_sets_is_generated_witness :
    { id := 1, title := "Intro", content := some "hello",
      is_generated := true : ContentItem }.content = some "hello"
    ∧ ({ id := 1, title := "Intro", content := some "hello",
         is_generated := true : ContentItem }.is_generated = true
        ↔ "hello" ≠ "") :=
  content_write_sets_is_generated.1 projA
    { items := [{ id := 1, title := "Intro", content := some "hello",
                  is_generated := true }],
      revisions := [], log := [] }
    1 "hello" rfl
    { id := 1, title := "Intro", content := some "hello",
      is_generated := true }
    (by decide) rfl

/-- C4: `handleRefine` sends no request when the prompt is blank after
trimming — it reports "Please enter a refinement prompt" instead — and every
request it does send carries the (non-blank) prompt together with the current
content; on the backend, `refine` fails with `ValidationError` when neither a
prompt nor replacement content is supplied for an empty-content item. -/
theorem refine_requires_prompt :
    (∀ (prompt content feedback comments : String),
        jsTrim prompt = "" →
        RefinementEditor.handleRefine prompt content feedback comments
          = .showError "Please enter a refinement prompt")
    ∧ (∀ (prompt content feedback comments : String) (body : RefineBody),
        RefinementEditor.handleRefine prompt content feedback comments
          = .sendRequest body →
        body.prompt = some prompt ∧ jsTrim prompt ≠ "" ∧
          body.content = content)
    ∧ (∀ (gen : String → String → String) (it : ContentItem)
        (f cm : Option String),
        it.content.getD "" = "" →
        refine gen it none none f cm = .error .ValidationError) := by
  refine ⟨?_, ?_, ?_⟩
  · intro prompt content feedback comments h
    simp only [RefinementEditor.handleRefine]
    rw [if_pos h]
  · intro prompt content feedback comments body h
    simp only [RefinementEditor.handleRefine] at h
    by_cases ht : jsTrim prompt = ""
    · rw [if_pos ht] at h; cases h
    · rw [if_neg ht] at h
      injection h with h'
      subst h'
      exact ⟨rfl, ht, rfl⟩
  · intro gen it f cm h
    simp only [refine]
    rw [if_pos h]

/-- C4, evaluated: a whitespace-only prompt is rejected client-side, and a
prompt-less, content-less refine of an empty item is a `ValidationError`. -/
theorem refine_requires_prompt_witness :
    jsTrim "   " = ""
    ∧ RefinementEditor.handleRefine "   " "body text" "" ""
        = .showError "Please enter a refinement prompt"
    ∧ itemEmpty.content.getD "" = ""
    ∧ refine gen0 itemEmpty none none none none
        = .error .ValidationError :=
  ⟨rfl,
   refine_requires_prompt.1 "   " "body text" "" "" rfl,
   rfl,
   refine_requires_prompt.2.2 gen0 itemEmpty none none rfl⟩

/-- C5: the manual-edit save path builds a request body with no prompt key,
the edited content, and feedback/comments that are null exactly when the
editor fields are empty; processing that body calls no external
text-generation capability (the result is the same for every `gen`) and
appends a Refinement Record with a null prompt. -/
theorem manual_save_no_prompt (content feedback comments : String)
    (gen gen' : String → String → String) (it : ContentItem) :
    (RefinementEditor.handleSave content feedback comments).prompt = none
    ∧ (RefinementEditor.handleSave content feedback comments).content
        = content
    ∧ ((RefinementEditor.handleSave content feedback comments).feedback
        = none ↔ feedback = "")
    ∧ ((RefinementEditor.handleSave content feedback comments).comments
        = none ↔ comments = "")
    ∧ refine gen it
        (RefinementEditor.handleSave content feedback comments).prompt
        (some (RefinementEditor.handleSave content feedback
          comments).content)
        (RefinementEditor.handleSave content feedback comments).feedback
        (RefinementEditor.handleSave content feedback comments).comments
      = refine gen' it
        (RefinementEditor.handleSave content feedback comments).prompt
        (some (RefinementEditor.handleSave content feedback
          comments).content)
        (RefinementEditor.handleSave content feedback comments).feedback
        (RefinementEditor.handleSave content feedback comments).comments
    ∧ ∃ (it' : ContentItem) (r : RefinementRecord),
        refine gen it
          (RefinementEditor.handleSave content feedback comments).prompt
          (some (RefinementEditor.handleSave content feedback
            comments).content)
          (RefinementEditor.handleSave content feedback comments).feedback
          (RefinementEditor.handleSave content feedback comments).comments
        = .ok (it', r) ∧ r.prompt = none ∧ it'.content = some content := by
  refine ⟨rfl, rfl, ?_, ?_, rfl, ?_⟩
  · by_cases h : feedback = "" <;>
      simp [RefinementEditor.handleSave, h]
  · by_cases h : comments = "" <;>
      simp [RefinementEditor.handleSave, h]
  · exact ⟨{ it with
             content := some content,
             is_generated := content != "" },
           { prompt := none,
             feedback := (RefinementEditor.handleSave content feedback
               comments).feedback,
             comments := (RefinementEditor.handleSave content feedback
               comments).comments },
           rfl, rfl, rfl⟩

/-- C5, evaluated: the save body for an empty feedback field has no prompt
and a null feedback. -/
theorem manual_save_no_prompt_witness :
    (RefinementEditor.handleSave "edited" "" "note").prompt = none
    ∧ ((RefinementEditor.handleSave "edited" "" "note").feedback = none
        ↔ "" = "") :=
  ⟨(manual_save_no_prompt "edited" "" "note" gen0 gen0 itemA).1,
   (manual_save_no_prompt "edited" "" "note" gen0 gen0 itemA).2.2.1⟩

/-- C6: a builder save posts exactly the titles that are non-blank after
trimming, and when none remain it issues no request and reports "Please add
at least one section" (Word) or "Please add at least one slide"
(PowerPoint). -/
theorem empty_outline_rejected (outline slideTitles : List String)
    (context : String) :
    (outline.filter (fun s => jsTrim s != "") = [] →
      WordBuilder.handleSave outline context
        = .showError "Please add at least one section")
    ∧ (outline.filter (fun s => jsTrim s != "") ≠ [] →
      WordBuilder.handleSave outline context
        = .post (outline.filter (fun s => jsTrim s != "")) context)
    ∧ (slideTitles.filter (fun s => jsTrim s != "") = [] →
      PPTBuilder.handleSave slideTitles context
        = .showError "Please add at least one slide")
    ∧ (slideTitles.filter (fun s => jsTrim s != "") ≠ [] →
      PPTBuilder.handleSave slideTitles context
        = .post (slideTitles.filter (fun s => jsTrim s != "")) context) := by
  refine ⟨?_, ?_, ?_, ?_⟩ <;> intro h
  · simp only [WordBuilder.handleSave]
    rw [if_pos (by rw [List.length_eq_zero]; exact h)]
  · simp only [WordBuilder.handleSave]
    rw [if_neg (by simpa [List.length_eq_zero] using h)]
  · simp only [PPTBuilder.handleSave]
    rw [if_pos (by rw [List.length_eq_zero]; exact h)]
  · simp only [PPTBuilder.handleSave]
    rw [if_neg (by simpa [List.length_eq_zero] using h)]

/-- C6, evaluated: an all-blank outline is rejected with the section
message; an all-blank slide list is rejected with the slide message. -/
theorem empty_outline_rejected_witness :
    (["", "  "].filter (fun s => jsTrim s != "") = []
      ∧ WordBuilder.handleSave ["", "  "] "ctx"
          = .showError "Please add at least one section")
    ∧ ((["", " "] : List String).filter (fun s => jsTrim s != "") = []
      ∧ PPTBuilder.handleSave ["", " "] "ctx"
          = .showError "Please add at least one slide") :=
  ⟨⟨rfl, (empty_outline_rejected ["", "  "] ["", " "] "ctx").1 rfl⟩,
   ⟨rfl, (empty_outline_rejected ["", "  "] ["", " "] "ctx").2.2.1 rfl⟩⟩

/-- C7, counterexample: the response interceptor does not suppress a silent
404 — at a concrete silent request with status 404 it rejects the error just
like any other failure, rather than resolving with an empty result. -/
theorem silent_404_still_rejected :
    (respondError bState0 true (some 404)).2 = .rejected
    ∧ (respondError bState0 true (some 404)).2 ≠ .resolvedEmpty
    ∧ respondError bState0 true (some 404) = (bState0, .rejected) := by
  refine ⟨rfl, ?_, rfl⟩
  intro h
  cases h

/-- C7, amended: the interceptor passes every non-401 error through
unchanged — rejected, with no browser side effect — whether or not the
request is silent (the silent 404/400 branch only skips console logging);
the empty-result behavior for expected absence lives in the caller:
`fetchRefinements` catches the rejection and leaves its refinement list
unchanged, so a caller that started empty observes an empty list. -/
theorem errors_pass_through_unchanged :
    (∀ (b : BrowserState) (isSilent : Bool) (status : Option Nat),
        status ≠ some 401 →
        respondError b isSilent status = (b, .rejected))
    ∧ (∀ (e : ApiError) (current : List RefinementRecord),
        RefinementEditor.fetchRefinements current (.error e) = current)
    ∧ (∀ (e : ApiError),
        RefinementEditor.fetchRefinements [] (.error e) = []) := by
  refine ⟨?_, ?_, ?_⟩
  · intro b isSilent status h
    simp only [respondError]
    rw [if_neg h]
    split <;> rfl
  · intro e current
    rfl
  · intro e
    rfl

/-- C7, evaluated: a silent 404 passes through unchanged and a caught error
leaves the refinement list empty. -/
theorem errors_pass_through_unchanged_witness :
    (some 404 : Option Nat) ≠ some 401
    ∧ respondError bState0 true (some 404) = (bState0, ErrOutcome.rejected)
    ∧ RefinementEditor.fetchRefinements [] (.error ApiError.NotFound)
        = [] :=
  ⟨by decide,
   errors_pass_through_unchanged.1 bState0 true (some 404) (by decide),
   errors_pass_through_unchanged.2.2 ApiError.NotFound⟩

/-- C8: on a 401 response — and only then — the interceptor removes the
`auth-storage` localStorage key (keeping every other key) and redirects to
`/login`, still rejecting the error; every other status is rejected with the
browser state untouched. -/
theorem unauthorized_clears_auth (b : BrowserState)
    (isSilent isSilent' : Bool) (status : Option Nat) :
    (respondError b isSilent (some 401)).1.href = "/login"
    ∧ "auth-storage" ∉
        (respondError b isSilent (some 401)).1.localStorageKeys
    ∧ (respondError b isSilent (some 401)).2 = .rejected
    ∧ (∀ k, k ∈ b.localStorageKeys → k ≠ "auth-storage" →
        k ∈ (respondError b isSilent (some 401)).1.localStorageKeys)
    ∧ (status ≠ some 401 →
        respondError b isSilent' status = (b, .rejected)) := by
  have h401 : respondError b isSilent (some 401)
      = ({ localStorageKeys := b.localStorageKeys.filter
             (fun k => k != "auth-storage"),
           href := "/login" }, .rejected) := by
    simp [respondError]
  refine ⟨by rw [h401], ?_, by rw [h401], ?_, ?_⟩
  · rw [h401]
    simp [List.mem_filter]
  · intro k hk hne
    rw [h401]
    exact List.mem_filter.mpr ⟨hk, by simpa [bne_iff_ne] using hne⟩
  · intro h
    simp only [respondError]
    rw [if_neg h]
    split <;> rfl

/-- C8, evaluated: at a concrete state, 401 drops `auth-storage`, keeps
`theme`, redirects to `/login`; a 500 has no side effect. -/
theorem unauthorized_clears_auth_witness :
    (respondError bState0 false (some 401)).1.href = "/login"
    ∧ "auth-storage" ∉
        (respondError bState0 false (some 401)).1.localStorageKeys
    ∧ "theme" ∈ (respondError bState0 false (some 401)).1.localStorageKeys
    ∧ respondError bState0 false (some 500)
        = (bState0, ErrOutcome.rejected) :=
  ⟨(unauthorized_clears_auth bState0 false false (some 500)).1,
   (unauthorized_clears_auth bState0 false false (some 500)).2.1,
   (unauthorized_clears_auth bState0 false false (some 500)).2.2.2.1
     "theme" (by decide) (by decide),
   (unauthorized_clears_auth bState0 false false (some 500)).2.2.2.2
     (by decide)⟩

/-- Indices at or above `k` never collide with `i` when `i < k`: the filter
keeps the whole suffix. -/
theorem enumFrom_filter_of_lt (i : Nat) :
    ∀ (l : List String) (k : Nat), i < k →
    (List.enumFrom k l).filter (fun p => p.1 != i) = List.enumFrom k l := by
  intro l
  induction l with
  | nil => intro k _; rfl
  | cons a l ih =>
      intro k hk
      rw [List.enumFrom_cons, List.filter_cons,
        if_pos (by simp [bne_iff_ne]; omega), ih (k + 1) (by omega)]

/-- Filtering one index out of an enumerated list drops at most one
element. -/
theorem enumFrom_filter_length (i : Nat) :
    ∀ (l : List String) (k : Nat),
    l.length ≤ ((List.enumFrom k l).filter (fun p => p.1 != i)).length
      + 1 := by
  intro l
  induction l with
  | nil => intro k; simp
  | cons a l ih =>
      intro k
      by_cases hk : k = i
      · subst hk
        rw [List.enumFrom_cons, List.filter_cons, if_neg (by simp),
          enumFrom_filter_of_lt k l (k + 1) (by omega)]
        simp [List.enumFrom_length]
      · rw [List.enumFrom_cons, List.filter_cons,
          if_pos (by simp [bne_iff_ne]; exact hk)]
        have := ih (k + 1)
        simp only [List.length_cons]
        omega

/-- The shared remove-entry shape of both builders keeps the list
non-empty. -/
theorem removeEntry_keeps_nonempty (l : List String) (i : Nat)
    (h : 1 ≤ l.length) :
    1 ≤ (if l.length > 1 then
          ((l.enum.filter (fun p => p.1 != i)).map (fun p => p.2))
        else l).length := by
  split
  · rename_i hlen
    rw [List.length_map]
    have he : l.enum = List.enumFrom 0 l := rfl
    have := enumFrom_filter_length i l 0
    rw [he]
    omega
  · exact h

/-- Every Word-builder edit keeps the outline non-empty. -/
theorem applyWordOp_keeps_nonempty (l : List String) (op : TitleOp)
    (h : 1 ≤ l.length) : 1 ≤ (applyWordOp l op).length := by
  cases op with
  | add =>
      simp [applyWordOp, WordBuilder.handleAddSection]
  | remove i =>
      exact removeEntry_keeps_nonempty l i h
  | change i v =>
      simpa [applyWordOp, WordBuilder.handleSectionChange,
        List.length_set] using h

/-- Every PowerPoint-builder edit keeps the title list non-empty. -/
theorem applyPptOp_keeps_nonempty (l : List String) (op : TitleOp)
    (h : 1 ≤ l.length) : 1 ≤ (applyPptOp l op).length := by
  cases op with
  | add =>
      simp [applyPptOp, PPTBuilder.handleAddSlide]
  | remove i =>
      exact removeEntry_keeps_nonempty l i h
  | change i v =>
      simpa [applyPptOp, PPTBuilder.handleSlideChange,
        List.length_set] using h

/-- Nonemptiness is preserved by every Word-builder edit sequence. -/
theorem runTitleOpsWord_keeps_nonempty (ops : List TitleOp) :
    ∀ l : List String, 1 ≤ l.length → 1 ≤ (runTitleOpsWord l ops).length := by
  induction ops with
  | nil => intro l h; simpa [runTitleOpsWord] using h
  | cons op ops ih =>
      intro l h
      exact ih (applyWordOp l op) (applyWordOp_keeps_nonempty l op h)

/-- Nonemptiness is preserved by every PowerPoint-builder edit sequence. -/
theorem runTitleOpsPpt_keeps_nonempty (ops : List TitleOp) :
    ∀ l : List String, 1 ≤ l.length → 1 ≤ (runTitleOpsPpt l ops).length := by
  induction ops with
  | nil => intro l h; simpa [runTitleOpsPpt] using h
  | cons op ops ih =>
      intro l h
      exact ih (applyPptOp l op) (applyPptOp_keeps_nonempty l op h)

/-- C9: starting from the initial one-entry state `[""]`, no sequence of
add/remove/change edits can empty the outline (Word) or the slide-title list
(PowerPoint): the remove handler only deletes when more than one entry
exists. -/
theorem outline_never_empty (ops : List TitleOp) :
    1 ≤ (runTitleOpsWord [""] ops).length
    ∧ 1 ≤ (runTitleOpsPpt [""] ops).length :=
  ⟨runTitleOpsWord_keeps_nonempty ops [""] (by simp),
   runTitleOpsPpt_keeps_nonempty ops [""] (by simp)⟩

/-- C9, evaluated: a concrete edit sequence with two removes still leaves an
entry in both builders. -/
theorem outline_never_empty_witness :
    1 ≤ (runTitleOpsWord [""] titleOps0).length
    ∧ 1 ≤ (runTitleOpsPpt [""] titleOps0).length :=
  outline_never_empty titleOps0

/-- C10: `logout` resets the auth store to exactly
`{user: null, token: null, isAuthenticated: false}`, deletes the default
Authorization header, removes `auth-storage` from localStorage, and
afterwards every `PrivateRoute` renders a redirect to `/login` instead of
its child. -/
theorem logout_resets_auth (s : ClientState) :
    (logout s).auth
      = { user := none, token := none, isAuthenticated := false }
    ∧ (logout s).authHeader = none
    ∧ "auth-storage" ∉ (logout s).localStorageKeys
    ∧ PrivateRoute (logout s).auth.isAuthenticated
        = .navigateTo "/login" := by
  refine ⟨rfl, rfl, ?_, rfl⟩
  simp [logout, List.mem_filter]

/-- C10, evaluated: logging out of a concrete signed-in client clears the
header and sends `PrivateRoute` to `/login`. -/
theorem logout_resets_auth_witness :
    (logout client0).authHeader = none
    ∧ PrivateRoute (logout client0).auth.isAuthenticated
        = RouteRender.navigateTo "/login" :=
  ⟨(logout_resets_auth client0).2.1,
   (logout_resets_auth client0).2.2.2⟩
